import Mathlib

/-!
Verification of the BioSentience inference and explanation engine
(src/app.py, with model metadata produced by src/train.py), as a shallow
embedding.  Modelling conventions:

* Python floats are modelled as exact rationals.  The claims checked here
  are about algebraic structure (interpolation formulas, threshold
  comparisons), not about binary rounding, and every concrete input used
  below is exactly representable.
* A single-row pandas dataframe (one tabular record) is an association
  list from column name to an optional cell: an absent key models a
  missing column, a cell equal to none models a null (NaN) value.
* The three trained regression models are abstract scoring functions
  passed as a parameter, mapping the schema-ordered value vector to a
  scalar.
* Fallible code paths return Except: a caught Python exception whose
  message is rebuilt generically by an except-handler is modelled as a
  dedicated internal-error constructor, while error strings that the code
  surfaces verbatim are kept as strings.
-/

deriving instance DecidableEq for Except

namespace BioSentience

abbrev Feature := String

abbrev Value := ℚ

/-- One tabular record (a single dataframe row): column name paired with
an optional cell value (`none` models a null / NaN cell). -/
abbrev Record := List (Feature × Option Value)

/-- Column lookup in a record: `none` when the column is absent,
`some c` when present with cell `c`. -/
def lookupCol : Record → Feature → Option (Option Value)
  | [], _ => none
  | (g, w) :: r, f => if g = f then some w else lookupCol r f

/-- The three prediction targets of the application. -/
inductive Target where
  | health_index
  | mutation_risk
  | adaptation_score
deriving DecidableEq

/-- One entry of a model's precomputed top_features list
(name plus training-time importance), as written by src/train.py. -/
structure FeatInfo where
  name : Feature
  importance : ℚ
deriving DecidableEq

/-- Per-target model metadata from models/metadata.json
(src/train.py lines 97-103). -/
structure ModelMeta where
  description : String
  r2_score : ℚ
  mse : ℚ
  top_features : List FeatInfo

/-- The process-wide metadata loaded at startup in src/app.py lines 33-40:
the ordered feature schema plus per-target model metadata. -/
structure Metadata where
  features : List Feature
  models : Target → ModelMeta

/-- Shallow embedding of validate_and_prepare_data (src/app.py lines
42-60).  Checks, in source order: (1) every expected feature is a column
of the record, else the missing-features message; (2) after projecting to
the schema columns, no null cells, else the missing-values message;
(3) no negative values, else the negative-values message.  On success
returns the projection of the record to the schema columns, in schema
order.  (Python joins the missing names from a set whose iteration order
is unspecified; here they are listed in schema order.) -/
def validate_and_prepare_data (schema : List Feature) (r : Record) :
    Except String (List (Feature × Value)) :=
  let missing := schema.filter (fun f => (lookupCol r f).isNone)
  if missing = [] then
    if schema.any (fun f => ((lookupCol r f).join).isNone) then
      .error "Data contains missing values. Please ensure all fields are filled."
    else
      let vals := schema.map (fun f => ((lookupCol r f).join).getD 0)
      if vals.any (fun v => decide (v < 0)) then
        .error "Data contains negative values. Biological metrics must be non-negative."
      else
        .ok (schema.zip vals)
  else
    .error ("Missing required features: " ++ String.intercalate ", " missing)

/-! Helper lemmas about the validator. -/

/-- If every schema field is present with a non-null, non-negative value,
validation succeeds with the schema-ordered projection. -/
lemma validate_ok_of_forall (schema : List Feature) (r : Record)
    (h : ∀ f ∈ schema, ∃ v : ℚ, lookupCol r f = some (some v) ∧ 0 ≤ v) :
    validate_and_prepare_data schema r =
      .ok (schema.zip (schema.map (fun f => ((lookupCol r f).join).getD 0))) := by
  have hmiss : schema.filter (fun f => (lookupCol r f).isNone) = [] := by
    apply List.filter_eq_nil_iff.mpr
    intro f hf
    obtain ⟨v, hv, _⟩ := h f hf
    simp [hv]
  have hnull : schema.any (fun f => ((lookupCol r f).join).isNone) = false := by
    apply List.any_eq_false.mpr
    intro f hf
    obtain ⟨v, hv, _⟩ := h f hf
    simp [hv, Option.join]
  have hneg :
      (schema.map (fun f => ((lookupCol r f).join).getD 0)).any
        (fun v => decide (v < 0)) = false := by
    apply List.any_eq_false.mpr
    intro v hv
    obtain ⟨f, hf, hfv⟩ := List.mem_map.mp hv
    obtain ⟨w, hw, hw0⟩ := h f hf
    rw [hw] at hfv
    simp only [Option.join, Option.some_bind, Option.getD_some] at hfv
    subst hfv
    simpa using not_lt.mpr hw0
  rw [validate_and_prepare_data]
  simp only [hmiss, hnull, hneg]
  simp

/-- Inversion: a successful validation forces every schema field to be
present, non-null and non-negative, and describes the returned vector. -/
lemma validate_ok_inv (schema : List Feature) (r : Record)
    (X : List (Feature × Value))
    (h : validate_and_prepare_data schema r = .ok X) :
    (∀ f ∈ schema, ∃ v : ℚ, lookupCol r f = some (some v) ∧ 0 ≤ v) ∧
      X = schema.zip (schema.map (fun f => ((lookupCol r f).join).getD 0)) := by
  rw [validate_and_prepare_data] at h
  by_cases hmiss : schema.filter (fun f => (lookupCol r f).isNone) = []
  · rw [if_pos hmiss] at h
    rcases hnull : schema.any (fun f => ((lookupCol r f).join).isNone) with _ | _
    · rw [hnull] at h
      simp only [Bool.false_eq_true, if_false] at h
      rcases hneg : (schema.map (fun f => ((lookupCol r f).join).getD 0)).any
          (fun v => decide (v < 0)) with _ | _
      · rw [hneg] at h
        simp only [Bool.false_eq_true, if_false, Except.ok.injEq] at h
        refine ⟨?_, h.symm⟩
        intro f hf
        rcases hc : lookupCol r f with _ | c
        · exfalso
          have : f ∈ schema.filter (fun f => (lookupCol r f).isNone) :=
            List.mem_filter.mpr ⟨hf, by simp [hc]⟩
          simp [hmiss] at this
        rcases c with _ | v
        · exfalso
          have := List.any_eq_false.mp hnull f hf
          simp [hc, Option.join] at this
        refine ⟨v, by simp [hc], ?_⟩
        have := List.any_eq_false.mp hneg (((lookupCol r f).join).getD 0)
          (List.mem_map.mpr ⟨f, hf, rfl⟩)
        rw [hc] at this
        simp only [Option.join, Option.some_bind, Option.getD_some] at this
        simpa using not_lt.mp (by simpa using this)
      · rw [hneg] at h
        simp at h
    · rw [hnull] at h
      simp at h
  · rw [if_neg hmiss] at h
    simp at h

/-- Membership in the zip of a list with its own map: each pair is a list
element together with its image. -/
lemma mem_zip_map {α β : Type} (g : α → β) (l : List α) (p : α × β)
    (h : p ∈ l.zip (l.map g)) : p.1 ∈ l ∧ p.2 = g p.1 := by
  induction l with
  | nil => simp at h
  | cons a as ih =>
    simp only [List.map_cons, List.zip_cons_cons, List.mem_cons] at h
    rcases h with h | h
    · subst h
      simp
    · obtain ⟨h1, h2⟩ := ih h
      exact ⟨List.mem_cons_of_mem _ h1, h2⟩

/-! The prediction step of the analyze endpoint. -/

/-- Shallow embedding of the prediction loop of the analyze endpoint
(src/app.py lines 189-198): one predicted scalar per target from the
scoring function, and one confidence per target taken from the static
historical r2_score in the metadata. -/
def predict_with_confidence (M : Metadata) (score : Target → List Value → ℚ)
    (X : List Value) : (Target → ℚ) × (Target → ℚ) :=
  (fun t => score t X, fun t => (M.models t).r2_score)

/-! The explanation synthesizer. -/

/-- One entry of the per-target explanation list
(src/app.py lines 83-88). -/
structure ImportanceEntry where
  feature : String
  value : ℚ
  importance : ℚ
  impact : String
deriving DecidableEq

/-- The explanation bundle built by generate_explanation
(src/app.py lines 64-69). -/
structure Explanation where
  health_index : List ImportanceEntry
  mutation_risk : List ImportanceEntry
  adaptation_score : List ImportanceEntry
  summary : String
deriving DecidableEq

/-- The impact tier of src/app.py line 87: high above 0.15, moderate
above 0.08, low otherwise. -/
def impactLabel (importance : ℚ) : String :=
  if importance > 15/100 then "high"
  else if importance > 8/100 then "moderate"
  else "low"

/-- Python str.title restricted to the record of characters: an
alphabetic character is uppercased when the previous character is not
alphabetic and lowercased otherwise. -/
def titleAux : Bool → List Char → List Char
  | _, [] => []
  | prevAlpha, c :: cs =>
    (if c.isAlpha then (if prevAlpha then c.toLower else c.toUpper) else c)
      :: titleAux c.isAlpha cs

/-- The readable feature name of src/app.py line 81: underscores become
spaces, then title case. -/
def readableName (f : Feature) : String :=
  ⟨titleAux false (f.data.map (fun c => if c = '_' then ' ' else c))⟩

/-- Lookup of an instance value in the validated, schema-ordered vector
(feature_values[feat_name] on the projected dataframe row). -/
def lookupVec : List (Feature × Value) → Feature → Option Value
  | [], _ => none
  | (g, w) :: r, f => if g = f then some w else lookupVec r f

/-- The status bucket for the health prediction (src/app.py line 95). -/
def health_status (health : ℚ) : String :=
  if health > 85/100 then "excellent"
  else if health > 70/100 then "good"
  else if health > 55/100 then "moderate"
  else "concerning"

/-- The status bucket for the mutation-risk prediction
(src/app.py line 96). -/
def risk_status (risk : ℚ) : String :=
  if risk < 15/100 then "low"
  else if risk < 30/100 then "moderate"
  else if risk < 45/100 then "elevated"
  else "high"

/-- The status bucket for the adaptation prediction
(src/app.py line 97). -/
def adaptation_status (adaptation : ℚ) : String :=
  if adaptation > 80/100 then "high"
  else if adaptation > 60/100 then "moderate"
  else "low"

/-- Rounding to the nearest integer with ties to even, the rounding of
Python float formatting.  Formatting of a value whose nearest binary
double differs from the written decimal is outside this model; every
concrete value formatted below is exact at two decimals. -/
def roundHalfEven (q : ℚ) : ℤ :=
  if q - q.floor < 1/2 then q.floor
  else if 1/2 < q - q.floor then q.floor + 1
  else if q.floor % 2 = 0 then q.floor else q.floor + 1

/-- Fixed-point rendering with two decimal places, the %.2f format used
in the summary string. -/
def format2 (q : ℚ) : String :=
  let n := roundHalfEven (q * 100)
  let sgn := if n < 0 then "-" else ""
  let m := n.natAbs
  sgn ++ toString (m / 100) ++ "." ++
    (if m % 100 < 10 then "0" else "") ++ toString (m % 100)

/-- The summary template of src/app.py lines 99-112: one sentence naming
the three bucketed statuses with their two-decimal values, then one
sentence naming the primary health driver and the main risk factor. -/
def summaryText (health risk adaptation : ℚ)
    (topHealthFeature topRiskFeature : String) : String :=
  "The biological system shows " ++ health_status health ++
    " health (index: " ++ format2 health ++ ") with " ++ risk_status risk ++
    " mutation risk (" ++ format2 risk ++ ") and " ++
    adaptation_status adaptation ++ " adaptation capability (" ++
    format2 adaptation ++ "). " ++
    "Primary health driver: " ++ topHealthFeature ++
    ". Main risk factor: " ++ topRiskFeature ++ "."

/-- The entry built for one top feature (src/app.py lines 75-88): the
instance value is looked up in the validated vector (a Python KeyError
when the name is not a column), the importance is copied, and the impact
tier is derived from the importance alone. -/
def entryFor (X : List (Feature × Value)) (fi : FeatInfo) :
    Except String ImportanceEntry :=
  match lookupVec X fi.name with
  | none => .error "KeyError"
  | some v => .ok ⟨readableName fi.name, v, fi.importance, impactLabel fi.importance⟩

/-- Left-to-right effectful map over Except: the embedding of a Python
for-loop whose body may raise, where the first raise aborts the loop. -/
def exceptMap {ε α β : Type} (f : α → Except ε β) : List α → Except ε (List β)
  | [] => .ok []
  | x :: xs =>
    match f x with
    | .error e => .error e
    | .ok y =>
      match exceptMap f xs with
      | .error e => .error e
      | .ok ys => .ok (y :: ys)

/-- The per-target explanation list: the top-3 precomputed top_features
entries of the registry (src/app.py line 75). -/
def targetEntries (M : Metadata) (X : List (Feature × Value)) (t : Target) :
    Except String (List ImportanceEntry) :=
  exceptMap (entryFor X) ((M.models t).top_features.take 3)

/-- Shallow embedding of generate_explanation (src/app.py lines 62-114):
build the three per-target entry lists, then the summary from the
bucketed statuses and the first entry of the health and mutation lists
(an IndexError when one of those lists is empty). -/
def generate_explanation (M : Metadata) (X : List (Feature × Value))
    (preds : Target → ℚ) : Except String Explanation :=
  match targetEntries M X .health_index with
  | .error e => .error e
  | .ok hi =>
    match targetEntries M X .mutation_risk with
    | .error e => .error e
    | .ok mr =>
      match targetEntries M X .adaptation_score with
      | .error e => .error e
      | .ok ad =>
        match hi, mr with
        | h0 :: _, m0 :: _ =>
          .ok ⟨hi, mr, ad,
            summaryText (preds .health_index) (preds .mutation_risk)
              (preds .adaptation_score) h0.feature m0.feature⟩
        | _, _ => .error "IndexError"

/-- Projection of the entry list of an explanation bundle at a target. -/
def entriesOf (e : Explanation) : Target → List ImportanceEntry
  | .health_index => e.health_index
  | .mutation_risk => e.mutation_risk
  | .adaptation_score => e.adaptation_score

/-- The entry that generate_explanation builds for a top feature whose
name is a column of the vector, with a total lookup. -/
def entryOfD (X : List (Feature × Value)) (fi : FeatInfo) : ImportanceEntry :=
  ⟨readableName fi.name, (lookupVec X fi.name).getD 0, fi.importance,
    impactLabel fi.importance⟩

/-! Helper lemmas about exceptMap. -/

lemma exceptMap_ok_of_forall {ε α β : Type} (f : α → Except ε β) (g : α → β)
    (l : List α) (h : ∀ x ∈ l, f x = .ok (g x)) :
    exceptMap f l = .ok (l.map g) := by
  induction l with
  | nil => rfl
  | cons a as ih =>
    have ha := h a (List.mem_cons_self a as)
    have has := ih (fun x hx => h x (List.mem_cons_of_mem a hx))
    simp [exceptMap, ha, has]

lemma exceptMap_ok_inv_map {ε α β : Type} (f : α → Except ε β) (g : α → β)
    (l : List α) (ys : List β) (h : exceptMap f l = .ok ys)
    (hg : ∀ x ∈ l, ∀ y, f x = .ok y → y = g x) :
    ys = l.map g := by
  induction l generalizing ys with
  | nil =>
    simp only [exceptMap, Except.ok.injEq] at h
    simp [← h]
  | cons a as ih =>
    rcases hfa : f a with e | y
    · simp [exceptMap, hfa] at h
    · rcases hrest : exceptMap f as with e | ys'
      · simp [exceptMap, hfa, hrest] at h
      · simp only [exceptMap, hfa, hrest, Except.ok.injEq] at h
        have h1 : y = g a := hg a (List.mem_cons_self a as) y hfa
        have h2 : ys' = as.map g :=
          ih ys' hrest (fun x hx y hy => hg x (List.mem_cons_of_mem a hx) y hy)
        simp [← h, h1, h2]

lemma exceptMap_error_of_exists {ε α β : Type} (f : α → Except ε β) (c : ε)
    (l : List α) (hall : ∀ x ∈ l, ∀ e, f x = .error e → e = c)
    (hex : ∃ x ∈ l, ∃ e, f x = .error e) :
    exceptMap f l = .error c := by
  induction l with
  | nil => simp at hex
  | cons a as ih =>
    rcases hfa : f a with e | y
    · have : e = c := hall a (List.mem_cons_self a as) e hfa
      subst this
      simp [exceptMap, hfa]
    · have hex' : ∃ x ∈ as, ∃ e, f x = .error e := by
        obtain ⟨x, hx, e, he⟩ := hex
        rcases List.mem_cons.mp hx with rfl | hx'
        · rw [hfa] at he
          cases he
        · exact ⟨x, hx', e, he⟩
      have := ih (fun x hx e he => hall x (List.mem_cons_of_mem a hx) e he) hex'
      simp [exceptMap, hfa, this]

/-! The simulation runner. -/

/-- The error outcomes of the simulate endpoint (src/app.py lines
218-281).  missingParameters is the explicit check of line 228;
validationError carries the base-validation message surfaced verbatim at
line 237; internalError is any exception caught by the handler of line
279 and rebuilt into a generic simulation-error message (ZeroDivisionError
from the interpolation, KeyError or TypeError around the base value, and
the predictor raising on the discarded None vector of line 255). -/
inductive SimError where
  | missingParameters
  | validationError (msg : String)
  | internalError
deriving DecidableEq

/-- One trajectory entry (src/app.py lines 258-261): the 0-based step
index, the varied value stored under the varied feature's name, and one
prediction per target. -/
structure SimStep where
  step : ℕ
  varied : ℚ
  health_index : ℚ
  mutation_risk : ℚ
  adaptation_score : ℚ
deriving DecidableEq

/-- The response of the simulate endpoint (src/app.py lines 269-275). -/
structure SimResponse where
  trajectory : List SimStep
  varied_feature : Feature
  base_value : ℚ
  variation_range : ℚ
  steps : ℤ
deriving DecidableEq

/-- The interpolation factor of src/app.py line 247. -/
def factor (variation_range : ℚ) (steps : ℤ) (i : ℕ) : ℚ :=
  1 - variation_range + 2 * variation_range * i / ((steps : ℚ) - 1)

/-- Dictionary update modified_features[vary_feature] = new_value
(src/app.py lines 251-252): replace the cell of the first matching key,
append the key when absent. -/
def setField : Record → Feature → Value → Record
  | [], f, v => [(f, some v)]
  | (g, w) :: r, f, v =>
    if g = f then (f, some v) :: r else (g, w) :: setField r f v

/-- One iteration of the simulation loop (src/app.py lines 245-267).
With steps = 1 the interpolation denominator is zero and Python raises
ZeroDivisionError, caught into the generic handler.  Otherwise the
varied record is revalidated with the error discarded (line 255); on a
validation failure the vector is None and the predictor raises, again
caught into the generic handler. -/
def simStep (schema : List Feature) (score : Target → List Value → ℚ)
    (base : Record) (vary : Feature) (baseValue : ℚ) (steps : ℤ)
    (variation_range : ℚ) (i : ℕ) : Except SimError SimStep :=
  if steps = 1 then .error .internalError
  else
    match validate_and_prepare_data schema
        (setField base vary (baseValue * factor variation_range steps i)) with
    | .error _ => .error .internalError
    | .ok X =>
      .ok ⟨i, baseValue * factor variation_range steps i,
        score .health_index (X.map Prod.snd),
        score .mutation_risk (X.map Prod.snd),
        score .adaptation_score (X.map Prod.snd)⟩

/-- Shallow embedding of the simulate endpoint (src/app.py lines
218-281): reject absent or falsy parameters, validate the base record
(surfacing the validator message), read the base value of the varied
feature (a KeyError when the key is absent and a TypeError downstream
when its cell is null, both caught generically), then run the loop over
range(steps) — empty when steps is not positive — and assemble the
response. -/
def simulate (M : Metadata) (score : Target → List Value → ℚ)
    (base : Record) (vary : Feature) (steps : ℤ) (variation_range : ℚ) :
    Except SimError SimResponse :=
  if base = [] ∨ vary = "" then .error .missingParameters
  else
    match validate_and_prepare_data M.features base with
    | .error e => .error (.validationError e)
    | .ok _ =>
      match lookupCol base vary with
      | none => .error .internalError
      | some none => .error .internalError
      | some (some baseValue) =>
        match exceptMap (simStep M.features score base vary baseValue steps
            variation_range) (List.range steps.toNat) with
        | .error e => .error e
        | .ok traj => .ok ⟨traj, vary, baseValue, variation_range, steps⟩

/-! Lemmas about setField and the simulation loop. -/

lemma lookupCol_setField_self (r : Record) (f : Feature) (v : Value) :
    lookupCol (setField r f v) f = some (some v) := by
  induction r with
  | nil => simp [setField, lookupCol]
  | cons p r ih =>
    obtain ⟨g, w⟩ := p
    by_cases hg : g = f
    · simp [setField, hg, lookupCol]
    · simp [setField, hg, lookupCol, ih]

lemma lookupCol_setField_ne (r : Record) (f g : Feature) (v : Value)
    (h : g ≠ f) : lookupCol (setField r f v) g = lookupCol r g := by
  have hfg : f ≠ g := fun he => h he.symm
  induction r with
  | nil => simp [setField, lookupCol, hfg]
  | cons p r ih =>
    obtain ⟨a, w⟩ := p
    by_cases ha : a = f
    · subst ha
      simp [setField, lookupCol, hfg]
    · simp only [setField, if_neg ha, lookupCol]
      by_cases hag : a = g
      · simp [hag]
      · simp [hag, ih]

/-- Any error raised by one simulation iteration is the generic internal
error: the per-step validator result is discarded by the code. -/
lemma simStep_error_internal (schema : List Feature)
    (score : Target → List Value → ℚ) (base : Record) (vary : Feature)
    (baseValue : ℚ) (steps : ℤ) (variation_range : ℚ) (i : ℕ) (e : SimError)
    (h : simStep schema score base vary baseValue steps variation_range i
        = .error e) :
    e = .internalError := by
  rw [simStep] at h
  by_cases hs : steps = 1
  · rw [if_pos hs] at h
    cases h
    rfl
  · rw [if_neg hs] at h
    rcases hv : validate_and_prepare_data schema
        (setField base vary (baseValue * factor variation_range steps i)) with
        msg | X
    · rw [hv] at h
      cases h
      rfl
    · rw [hv] at h
      cases h

/-! Concrete fixtures used to instantiate the theorems below. -/

/-- A small demo schema in the shape produced by src/train.py. -/
def demoSchema : List Feature := ["gene_expr", "cell_density", "env_stress"]

/-- Demo registry metadata in the shape written by src/train.py
lines 97-103. -/
def demoMeta : Metadata where
  features := demoSchema
  models := fun t =>
    match t with
    | .health_index =>
      ⟨"Health Index (overall biological wellness)", 9/10, 1/100,
        [⟨"gene_expr", 1/4⟩, ⟨"cell_density", 1/10⟩, ⟨"env_stress", 1/20⟩]⟩
    | .mutation_risk =>
      ⟨"Mutation Risk (genetic instability probability)", 4/5, 1/50,
        [⟨"env_stress", 3/10⟩, ⟨"gene_expr", 1/5⟩, ⟨"cell_density", 1/10⟩]⟩
    | .adaptation_score =>
      ⟨"Adaptation Score (environmental resilience)", 7/10, 3/100,
        [⟨"cell_density", 1/2⟩, ⟨"env_stress", 1/8⟩, ⟨"gene_expr", 1/16⟩]⟩

/-- A demo family of scoring functions. -/
def demoScore : Target → List Value → ℚ := fun _ _ => 0

/-- A valid demo base record whose varied feature has base value 10. -/
def demoBase10 : Record :=
  [("gene_expr", some 10), ("cell_density", some 5), ("env_stress", some 2)]

/-- A demo validated vector. -/
def demoX : List (Feature × Value) :=
  [("gene_expr", 10), ("cell_density", 5), ("env_stress", 2)]

/-- Demo predictions with exact two-decimal values. -/
def demoPreds : Target → ℚ := fun t =>
  match t with
  | .health_index => 9/10
  | .mutation_risk => 12/100
  | .adaptation_score => 1/2

/-! Shared characterization lemmas. -/

/-- Interval characterization of the impact tier chain of
src/app.py line 87. -/
lemma impactLabel_cases (q : ℚ) :
    (15/100 < q → impactLabel q = "high") ∧
    (8/100 < q ∧ q ≤ 15/100 → impactLabel q = "moderate") ∧
    (q ≤ 8/100 → impactLabel q = "low") := by
  unfold impactLabel
  refine ⟨fun h => by rw [if_pos h], fun h => ?_, fun h => ?_⟩
  · rw [if_neg (not_lt.mpr h.2), if_pos h.1]
  · rw [if_neg (not_lt.mpr (h.trans (by norm_num))), if_neg (not_lt.mpr h)]

/-- Interval characterization of the health status chain of
src/app.py line 95. -/
lemma health_status_cases (x : ℚ) :
    (85/100 < x → health_status x = "excellent") ∧
    (70/100 < x ∧ x ≤ 85/100 → health_status x = "good") ∧
    (55/100 < x ∧ x ≤ 70/100 → health_status x = "moderate") ∧
    (x ≤ 55/100 → health_status x = "concerning") := by
  unfold health_status
  refine ⟨fun h => by rw [if_pos h], fun h => ?_, fun h => ?_, fun h => ?_⟩
  · rw [if_neg (not_lt.mpr h.2), if_pos h.1]
  · rw [if_neg (not_lt.mpr (h.2.trans (by norm_num))),
      if_neg (not_lt.mpr h.2), if_pos h.1]
  · rw [if_neg (not_lt.mpr (h.trans (by norm_num))),
      if_neg (not_lt.mpr (h.trans (by norm_num))), if_neg (not_lt.mpr h)]

/-- Interval characterization of the risk status chain of
src/app.py line 96. -/
lemma risk_status_cases (x : ℚ) :
    (x < 15/100 → risk_status x = "low") ∧
    (15/100 ≤ x ∧ x < 30/100 → risk_status x = "moderate") ∧
    (30/100 ≤ x ∧ x < 45/100 → risk_status x = "elevated") ∧
    (45/100 ≤ x → risk_status x = "high") := by
  unfold risk_status
  refine ⟨fun h => by rw [if_pos h], fun h => ?_, fun h => ?_, fun h => ?_⟩
  · rw [if_neg (not_lt.mpr h.1), if_pos h.2]
  · rw [if_neg (not_lt.mpr (le_trans (by norm_num) h.1)),
      if_neg (not_lt.mpr h.1), if_pos h.2]
  · rw [if_neg (not_lt.mpr (le_trans (by norm_num) h)),
      if_neg (not_lt.mpr (le_trans (by norm_num) h)), if_neg (not_lt.mpr h)]

/-- Interval characterization of the adaptation status chain of
src/app.py line 97. -/
lemma adaptation_status_cases (x : ℚ) :
    (80/100 < x → adaptation_status x = "high") ∧
    (60/100 < x ∧ x ≤ 80/100 → adaptation_status x = "moderate") ∧
    (x ≤ 60/100 → adaptation_status x = "low") := by
  unfold adaptation_status
  refine ⟨fun h => by rw [if_pos h], fun h => ?_, fun h => ?_⟩
  · rw [if_neg (not_lt.mpr h.2), if_pos h.1]
  · rw [if_neg (not_lt.mpr (h.trans (by norm_num))), if_neg (not_lt.mpr h)]

/-- Inversion of a successful generate_explanation run: the three entry
lists are the mapped top-3 top_features of the registry, the health and
mutation lists are nonempty, and the summary is the template applied to
the predictions and the first entries' feature names. -/
lemma generate_explanation_ok_inv (M : Metadata) (X : List (Feature × Value))
    (preds : Target → ℚ) (e : Explanation)
    (h : generate_explanation M X preds = .ok e) :
    (∀ t : Target,
      entriesOf e t = ((M.models t).top_features.take 3).map (entryOfD X)) ∧
    ∃ h0 hs m0 ms, e.health_index = h0 :: hs ∧ e.mutation_risk = m0 :: ms ∧
      e.summary = summaryText (preds .health_index) (preds .mutation_risk)
        (preds .adaptation_score) h0.feature m0.feature := by
  have hentry : ∀ fi, ∀ y, entryFor X fi = .ok y → y = entryOfD X fi := by
    intro fi y hy
    rw [entryFor] at hy
    rcases hl : lookupVec X fi.name with _ | v
    · rw [hl] at hy
      cases hy
    · rw [hl] at hy
      cases hy
      rw [entryOfD, hl]
      rfl
  rw [generate_explanation] at h
  rcases hhi : targetEntries M X .health_index with e1 | hi
  · rw [hhi] at h
    cases h
  rw [hhi] at h
  rcases hmr : targetEntries M X .mutation_risk with e2 | mr
  · rw [hmr] at h
    cases h
  rw [hmr] at h
  rcases had : targetEntries M X .adaptation_score with e3 | ad
  · rw [had] at h
    cases h
  rw [had] at h
  have hhi' : hi = ((M.models Target.health_index).top_features.take 3).map
      (entryOfD X) :=
    exceptMap_ok_inv_map _ _ _ _ hhi (fun fi _ => hentry fi)
  have hmr' : mr = ((M.models Target.mutation_risk).top_features.take 3).map
      (entryOfD X) :=
    exceptMap_ok_inv_map _ _ _ _ hmr (fun fi _ => hentry fi)
  have had' : ad = ((M.models Target.adaptation_score).top_features.take 3).map
      (entryOfD X) :=
    exceptMap_ok_inv_map _ _ _ _ had (fun fi _ => hentry fi)
  rcases hi with _ | ⟨h0, hs⟩
  · cases h
  rcases mr with _ | ⟨m0, ms⟩
  · cases h
  cases h
  refine ⟨?_, h0, hs, m0, ms, rfl, rfl, rfl⟩
  intro t
  cases t
  · exact hhi'
  · exact hmr'
  · exact had'

/-! Claim theorems.  Each theorem states one claim of the specification
against the embedding above. -/

/-- C1: the specification claims that simulate with steps = 1 must not
error and must return exactly one step at factor 1.0.  The code has no
such special case: at steps = 1 the interpolation denominator steps - 1
is zero, Python raises ZeroDivisionError at line 247, and the handler at
line 279 turns it into a generic simulation error.  This theorem
evaluates the embedded code at the failing input (a valid base record,
varied feature with base value 10, variation range 0.5, steps = 1): the
call errors instead of producing a one-step trajectory. -/
theorem C1_steps_one_division_by_zero :
    simulate demoMeta demoScore demoBase10 "gene_expr" 1 (1/2) =
      .error .internalError := by
  with_unfolding_all rfl

/-- C2: for steps ≥ 2 the interpolation factor
1 - variation_range + 2·variation_range·i/(steps-1) equals
1 - variation_range at i = 0 and 1 + variation_range at i = steps - 1,
so the factors span that interval inclusive at the endpoints; and
concretely steps = 3 with variation_range = 0.5 and base value 10
produces factors [0.5, 1.0, 1.5] and varied values [5.0, 10.0, 15.0]. -/
theorem C2_factor_interpolation (r : ℚ) (n : ℤ) (hn : 2 ≤ n) :
    factor r n 0 = 1 - r ∧
    factor r n (n - 1).toNat = 1 + r ∧
    (List.range 3).map (fun i => factor (1/2) 3 i) = [1/2, 1, 3/2] ∧
    simulate demoMeta demoScore demoBase10 "gene_expr" 3 (1/2) =
      .ok ⟨[⟨0, 5, 0, 0, 0⟩, ⟨1, 10, 0, 0, 0⟩, ⟨2, 15, 0, 0, 0⟩],
        "gene_expr", 10, 1/2, 3⟩ := by
  refine ⟨by simp [factor], ?_, by with_unfolding_all rfl,
    by with_unfolding_all rfl⟩
  have h1 : ((n - 1).toNat : ℚ) = (n : ℚ) - 1 := by
    have h : ((n - 1).toNat : ℤ) = n - 1 := Int.toNat_of_nonneg (by omega)
    have := congrArg (fun z : ℤ => (z : ℚ)) h
    push_cast at this ⊢
    linarith [this]
  have h2 : (n : ℚ) - 1 ≠ 0 := by
    have : (2 : ℚ) ≤ (n : ℚ) := by exact_mod_cast hn
    intro hz
    linarith
  rw [factor, h1, mul_div_assoc, div_self h2]
  ring

/-- C2 witness: the endpoint and concrete facts at steps = 10 and
variation_range = 0.3 (the spanning example of the specification). -/
theorem C2_factor_interpolation_witness :
    factor (3/10) 10 0 = 1 - 3/10 ∧
    factor (3/10) 10 ((10 : ℤ) - 1).toNat = 1 + 3/10 ∧
    (List.range 3).map (fun i => factor (1/2) 3 i) = [1/2, 1, 3/2] ∧
    simulate demoMeta demoScore demoBase10 "gene_expr" 3 (1/2) =
      .ok ⟨[⟨0, 5, 0, 0, 0⟩, ⟨1, 10, 0, 0, 0⟩, ⟨2, 15, 0, 0, 0⟩],
        "gene_expr", 10, 1/2, 3⟩ :=
  C2_factor_interpolation (3/10) 10 (by decide)

/-- C5: a record containing at least all schema fields with non-null,
non-negative values validates successfully; the returned vector's key
sequence is exactly the schema in schema order (so extra fields are
dropped, not errors), and each returned value is the record's value. -/
theorem C5_validate_success (schema : List Feature) (r : Record)
    (h : ∀ f ∈ schema, ∃ v : ℚ, lookupCol r f = some (some v) ∧ 0 ≤ v) :
    ∃ X, validate_and_prepare_data schema r = .ok X ∧
      X.map Prod.fst = schema ∧
      ∀ p ∈ X, lookupCol r p.1 = some (some p.2) := by
  refine ⟨_, validate_ok_of_forall schema r h, ?_, ?_⟩
  · rw [List.map_fst_zip]
    simp
  · intro p hp
    obtain ⟨hmem, hval⟩ := mem_zip_map _ _ _ hp
    obtain ⟨v, hv, _⟩ := h p.1 hmem
    rw [hv] at hval
    simp only [Option.join, Option.some_bind, id_eq, Option.getD_some] at hval
    rw [hv, hval]

/-- A record with an extra non-schema field in front. -/
def demoRecordExtra : Record :=
  [("extra_field", some 1), ("gene_expr", some 10), ("cell_density", some 5),
   ("env_stress", some 2)]

/-- C5 witness: the demo record with an extra field validates and the
extra field is dropped. -/
theorem C5_validate_success_witness :
    ∃ X, validate_and_prepare_data demoSchema demoRecordExtra = .ok X ∧
      X.map Prod.fst = demoSchema ∧
      ∀ p ∈ X, lookupCol demoRecordExtra p.1 = some (some p.2) :=
  C5_validate_success demoSchema demoRecordExtra (by
    intro f hf
    fin_cases hf
    · exact ⟨10, by with_unfolding_all rfl, by norm_num⟩
    · exact ⟨5, by with_unfolding_all rfl, by norm_num⟩
    · exact ⟨2, by with_unfolding_all rfl, by norm_num⟩)

/-- C6: the validator's checks run in the fixed source order — missing
schema fields first, then null values, then negative values — and a
record missing at least one schema field fails with the missing-features
message naming exactly the missing fields, regardless of nulls or
negatives elsewhere in the record. -/
theorem C6_check_order (schema : List Feature) (r : Record) :
    ((∃ f ∈ schema, lookupCol r f = none) →
      validate_and_prepare_data schema r =
        .error ("Missing required features: " ++ String.intercalate ", "
          (schema.filter (fun f => (lookupCol r f).isNone))) ∧
      ∀ g, g ∈ schema.filter (fun f => (lookupCol r f).isNone) ↔
        (g ∈ schema ∧ lookupCol r g = none)) ∧
    ((∀ f ∈ schema, lookupCol r f ≠ none) →
      (∃ f ∈ schema, (lookupCol r f).join = none) →
      validate_and_prepare_data schema r =
        .error "Data contains missing values. Please ensure all fields are filled.") ∧
    ((∀ f ∈ schema, ∃ v : ℚ, lookupCol r f = some (some v)) →
      (∃ f ∈ schema, ∃ v : ℚ, lookupCol r f = some (some v) ∧ v < 0) →
      validate_and_prepare_data schema r =
        .error "Data contains negative values. Biological metrics must be non-negative.") := by
  refine ⟨fun h => ?_, fun hall hnull => ?_, fun hall hneg => ?_⟩
  · obtain ⟨f, hf, hnone⟩ := h
    have hne : schema.filter (fun f => (lookupCol r f).isNone) ≠ [] := by
      intro he
      have : f ∈ schema.filter (fun f => (lookupCol r f).isNone) :=
        List.mem_filter.mpr ⟨hf, by simp [hnone]⟩
      simp [he] at this
    rw [validate_and_prepare_data, if_neg hne]
    exact ⟨rfl, fun g => by simp [List.mem_filter]⟩
  · have hmiss : schema.filter (fun f => (lookupCol r f).isNone) = [] := by
      apply List.filter_eq_nil_iff.mpr
      intro f hf
      simp [Option.isNone_iff_eq_none, hall f hf]
    have hany : schema.any (fun f => ((lookupCol r f).join).isNone) = true := by
      obtain ⟨f, hf, hj⟩ := hnull
      exact List.any_eq_true.mpr ⟨f, hf, by rw [Option.isNone_iff_eq_none]; exact hj⟩
    rw [validate_and_prepare_data, if_pos hmiss, if_pos hany]
  · have hmiss : schema.filter (fun f => (lookupCol r f).isNone) = [] := by
      apply List.filter_eq_nil_iff.mpr
      intro f hf
      obtain ⟨v, hv⟩ := hall f hf
      simp [hv]
    have hnull' : schema.any (fun f => ((lookupCol r f).join).isNone) = false := by
      apply List.any_eq_false.mpr
      intro f hf
      obtain ⟨v, hv⟩ := hall f hf
      simp [hv, Option.join]
    have hanyneg :
        (schema.map (fun f => ((lookupCol r f).join).getD 0)).any
          (fun v => decide (v < 0)) = true := by
      obtain ⟨f, hf, v, hv, hvneg⟩ := hneg
      apply List.any_eq_true.mpr
      refine ⟨((lookupCol r f).join).getD 0, List.mem_map.mpr ⟨f, hf, rfl⟩, ?_⟩
      rw [hv]
      simp only [Option.join, Option.some_bind, Option.getD_some]
      simpa using hvneg
    rw [validate_and_prepare_data]
    simp only [hmiss, hnull', hanyneg]
    simp

/-- A record missing the gene_expr schema field while also containing a
negative value and a null value. -/
def demoRecordBad : Record :=
  [("cell_density", some (-3)), ("env_stress", none)]

/-- C6 witness: the bad demo record — missing a schema field, with a
null and a negative — fails with the missing-features message naming
exactly the missing field. -/
theorem C6_check_order_witness :
    validate_and_prepare_data demoSchema demoRecordBad =
      .error "Missing required features: gene_expr" ∧
    ("gene_expr" ∈ demoSchema.filter
      (fun f => (lookupCol demoRecordBad f).isNone) ↔
      ("gene_expr" ∈ demoSchema ∧ lookupCol demoRecordBad "gene_expr" = none)) := by
  have h := (C6_check_order demoSchema demoRecordBad).1
    ⟨"gene_expr", by decide, by with_unfolding_all rfl⟩
  exact ⟨h.1.trans (by with_unfolding_all rfl), h.2 "gene_expr"⟩

/-- C7: the confidence mapping returned by the prediction step is the
static historical r2_score of each target from the registry metadata,
identical for every input vector: it is never computed from the current
vector. -/
theorem C7_confidence_static (M : Metadata) (score : Target → List Value → ℚ)
    (X₁ X₂ : List Value) (t : Target) :
    (predict_with_confidence M score X₁).2 t = (M.models t).r2_score ∧
    (predict_with_confidence M score X₁).2 = (predict_with_confidence M score X₂).2 :=
  ⟨rfl, rfl⟩

/-- C8: for every target, a successful explanation emits exactly the
registry's top-3 precomputed top_features entries, and each entry's
impact tier is a pure function of its training-time importance via the
fixed thresholds (above 0.15 high, above 0.08 up to 0.15 moderate,
otherwise low) — never recomputed from the instance's feature values. -/
theorem C8_top3_entries_and_impact (M : Metadata) (X : List (Feature × Value))
    (preds : Target → ℚ) (e : Explanation)
    (h : generate_explanation M X preds = .ok e) :
    (∀ t : Target,
      entriesOf e t = ((M.models t).top_features.take 3).map (entryOfD X)) ∧
    ∀ q : ℚ, (15/100 < q → impactLabel q = "high") ∧
      (8/100 < q ∧ q ≤ 15/100 → impactLabel q = "moderate") ∧
      (q ≤ 8/100 → impactLabel q = "low") :=
  ⟨(generate_explanation_ok_inv M X preds e h).1, impactLabel_cases⟩

/-- The explanation bundle computed for the demo fixtures. -/
def demoExplanation : Explanation :=
  ⟨[⟨"Gene Expr", 10, 1/4, "high"⟩, ⟨"Cell Density", 5, 1/10, "moderate"⟩,
    ⟨"Env Stress", 2, 1/20, "low"⟩],
   [⟨"Env Stress", 2, 3/10, "high"⟩, ⟨"Gene Expr", 10, 1/5, "high"⟩,
    ⟨"Cell Density", 5, 1/10, "moderate"⟩],
   [⟨"Cell Density", 5, 1/2, "high"⟩, ⟨"Env Stress", 2, 1/8, "moderate"⟩,
    ⟨"Gene Expr", 10, 1/16, "low"⟩],
   "The biological system shows excellent health (index: 0.90) with low mutation risk (0.12) and low adaptation capability (0.50). Primary health driver: Gene Expr. Main risk factor: Env Stress."⟩

/-- C8 witness at the demo fixtures. -/
theorem C8_top3_entries_and_impact_witness :
    (∀ t : Target, entriesOf demoExplanation t =
      ((demoMeta.models t).top_features.take 3).map (entryOfD demoX)) ∧
    ∀ q : ℚ, (15/100 < q → impactLabel q = "high") ∧
      (8/100 < q ∧ q ≤ 15/100 → impactLabel q = "moderate") ∧
      (q ≤ 8/100 → impactLabel q = "low") :=
  C8_top3_entries_and_impact demoMeta demoX demoPreds demoExplanation
    (by with_unfolding_all rfl)

/-- C9: a successful explanation classifies each prediction into its
status bucket by the fixed per-target thresholds (health: above 0.85
excellent, above 0.70 good, above 0.55 moderate, else concerning; risk:
below 0.15 low, below 0.30 moderate, below 0.45 elevated, else high;
adaptation: above 0.80 high, above 0.60 moderate, else low) and composes
the summary as the sentence naming each bucketed status with its
two-decimal value followed by the sentence naming the top-ranked
health_index feature as the primary health driver and the top-ranked
mutation_risk feature as the main risk factor. -/
theorem C9_status_buckets_and_summary (M : Metadata)
    (X : List (Feature × Value)) (preds : Target → ℚ) (e : Explanation)
    (h : generate_explanation M X preds = .ok e) :
    (∀ x : ℚ, (85/100 < x → health_status x = "excellent") ∧
      (70/100 < x ∧ x ≤ 85/100 → health_status x = "good") ∧
      (55/100 < x ∧ x ≤ 70/100 → health_status x = "moderate") ∧
      (x ≤ 55/100 → health_status x = "concerning")) ∧
    (∀ x : ℚ, (x < 15/100 → risk_status x = "low") ∧
      (15/100 ≤ x ∧ x < 30/100 → risk_status x = "moderate") ∧
      (30/100 ≤ x ∧ x < 45/100 → risk_status x = "elevated") ∧
      (45/100 ≤ x → risk_status x = "high")) ∧
    (∀ x : ℚ, (80/100 < x → adaptation_status x = "high") ∧
      (60/100 < x ∧ x ≤ 80/100 → adaptation_status x = "moderate") ∧
      (x ≤ 60/100 → adaptation_status x = "low")) ∧
    ∃ h0 hs m0 ms, e.health_index = h0 :: hs ∧ e.mutation_risk = m0 :: ms ∧
      e.summary = summaryText (preds .health_index) (preds .mutation_risk)
        (preds .adaptation_score) h0.feature m0.feature :=
  ⟨health_status_cases, risk_status_cases, adaptation_status_cases,
    (generate_explanation_ok_inv M X preds e h).2⟩

/-- C9 witness at the demo fixtures. -/
theorem C9_status_buckets_and_summary_witness :
    (∀ x : ℚ, (85/100 < x → health_status x = "excellent") ∧
      (70/100 < x ∧ x ≤ 85/100 → health_status x = "good") ∧
      (55/100 < x ∧ x ≤ 70/100 → health_status x = "moderate") ∧
      (x ≤ 55/100 → health_status x = "concerning")) ∧
    (∀ x : ℚ, (x < 15/100 → risk_status x = "low") ∧
      (15/100 ≤ x ∧ x < 30/100 → risk_status x = "moderate") ∧
      (30/100 ≤ x ∧ x < 45/100 → risk_status x = "elevated") ∧
      (45/100 ≤ x → risk_status x = "high")) ∧
    (∀ x : ℚ, (80/100 < x → adaptation_status x = "high") ∧
      (60/100 < x ∧ x ≤ 80/100 → adaptation_status x = "moderate") ∧
      (x ≤ 60/100 → adaptation_status x = "low")) ∧
    ∃ h0 hs m0 ms, demoExplanation.health_index = h0 :: hs ∧
      demoExplanation.mutation_risk = m0 :: ms ∧
      demoExplanation.summary = summaryText (demoPreds .health_index)
        (demoPreds .mutation_risk) (demoPreds .adaptation_score)
        h0.feature m0.feature :=
  C9_status_buckets_and_summary demoMeta demoX demoPreds demoExplanation
    (by with_unfolding_all rfl)

/-- C3 counterexample: with a valid base record (value 10), varied
feature gene_expr, steps = 2 and variation_range = 2, the first
perturbed value is 10·(1-2) = -10, violating the non-negativity
constraint; the claim says the call fails with the propagated
FeatureValidator error, but the code discards the per-step validator
result (line 255) and the predictor raises on the None vector, so the
call fails with the generic internal simulation error instead. -/
theorem C3_counterexample :
    simulate demoMeta demoScore demoBase10 "gene_expr" 2 2 =
      .error .internalError ∧
    SimError.internalError ≠ SimError.validationError
      "Data contains negative values. Biological metrics must be non-negative." := by
  refine ⟨by with_unfolding_all rfl, fun h => ?_⟩
  cases h

/-- C3 as amended: a step whose perturbed record violates a validation
constraint does fail the whole simulation (no silent skip, no
continuation), but with the generic internal simulation error — the
FeatureValidator error of that step is discarded by the code, not
propagated. -/
theorem C3_step_failure_aborts_generically (M : Metadata)
    (score : Target → List Value → ℚ) (base : Record) (vary : Feature)
    (baseValue : ℚ) (steps : ℤ) (vrange : ℚ) (Xb : List (Feature × Value))
    (hbase : ¬(base = [] ∨ vary = ""))
    (hval : validate_and_prepare_data M.features base = .ok Xb)
    (hlook : lookupCol base vary = some (some baseValue))
    (hfail : ∃ i ∈ List.range steps.toNat, ∃ msg,
      validate_and_prepare_data M.features
        (setField base vary (baseValue * factor vrange steps i)) = .error msg) :
    simulate M score base vary steps vrange = .error .internalError := by
  have hmap : exceptMap
      (simStep M.features score base vary baseValue steps vrange)
      (List.range steps.toNat) = .error .internalError := by
    apply exceptMap_error_of_exists
    · intro i _ e he
      exact simStep_error_internal _ _ _ _ _ _ _ _ _ he
    · obtain ⟨i, hi, msg, hm⟩ := hfail
      refine ⟨i, hi, .internalError, ?_⟩
      by_cases hs : steps = 1
      · rw [simStep, if_pos hs]
      · rw [simStep, if_neg hs, hm]
  simp only [simulate, if_neg hbase, hval, hlook, hmap]

/-- C3 witness: the amended theorem applied at concrete inputs — varied
feature cell_density (base value 5), steps = 2, variation_range = 2, so
step 0 perturbs to -5 and fails validation, aborting the simulation with
the generic internal error. -/
theorem C3_step_failure_aborts_generically_witness :
    simulate demoMeta demoScore demoBase10 "cell_density" 2 2 =
      .error .internalError :=
  C3_step_failure_aborts_generically demoMeta demoScore demoBase10
    "cell_density" 5 2 2
    [("gene_expr", 10), ("cell_density", 5), ("env_stress", 2)]
    (by decide) (by with_unfolding_all rfl) (by with_unfolding_all rfl)
    ⟨0, by decide,
      "Data contains negative values. Biological metrics must be non-negative.",
      by with_unfolding_all rfl⟩

/-- C4 counterexample: with a valid base record, steps = 0 (a
non-positive step count) the loop over range(0) is empty and the call
succeeds with an empty trajectory, contradicting the claim that every
non-positive step count is surfaced as a SimulationError. -/
theorem C4_counterexample :
    simulate demoMeta demoScore demoBase10 "gene_expr" 0 (3/10) =
      .ok ⟨[], "gene_expr", 10, 3/10, 0⟩ := by
  with_unfolding_all rfl

/-- C4 as amended: the code performs no step-count check at all — a
non-positive step count yields a successful response with an empty
trajectory, and the degenerate positive count steps = 1 is not
normalized but hits the division by zero, surfaced as the generic
internal simulation error. -/
theorem C4_nonpositive_steps_succeed (M : Metadata)
    (score : Target → List Value → ℚ) (base : Record) (vary : Feature)
    (baseValue : ℚ) (steps : ℤ) (vrange : ℚ) (Xb : List (Feature × Value))
    (hsteps : steps ≤ 0)
    (hbase : ¬(base = [] ∨ vary = ""))
    (hval : validate_and_prepare_data M.features base = .ok Xb)
    (hlook : lookupCol base vary = some (some baseValue)) :
    simulate M score base vary steps vrange =
      .ok ⟨[], vary, baseValue, vrange, steps⟩ ∧
    simulate M score base vary 1 vrange = .error .internalError := by
  constructor
  · have h0 : steps.toNat = 0 := Int.toNat_of_nonpos hsteps
    simp only [simulate, if_neg hbase, hval, hlook, h0, List.range_zero,
      exceptMap]
  · have hmap : exceptMap
        (simStep M.features score base vary baseValue 1 vrange)
        (List.range (1 : ℤ).toNat) = .error .internalError := by
      have h1 : (1 : ℤ).toNat = 1 := rfl
      have h2 : List.range 1 = [0] := rfl
      rw [h1, h2]
      have hs : simStep M.features score base vary baseValue 1 vrange 0 =
          .error .internalError := by
        rw [simStep, if_pos rfl]
      simp [exceptMap, hs]
    simp only [simulate, if_neg hbase, hval, hlook, hmap]

/-- C4 witness: the amended theorem applied at steps = -3. -/
theorem C4_nonpositive_steps_succeed_witness :
    simulate demoMeta demoScore demoBase10 "gene_expr" (-3) (3/10) =
      .ok ⟨[], "gene_expr", 10, 3/10, -3⟩ ∧
    simulate demoMeta demoScore demoBase10 "gene_expr" 1 (3/10) =
      .error .internalError :=
  C4_nonpositive_steps_succeed demoMeta demoScore demoBase10 "gene_expr" 10
    (-3) (3/10) [("gene_expr", 10), ("cell_density", 5), ("env_stress", 2)]
    (by decide) (by decide) (by with_unfolding_all rfl)
    (by with_unfolding_all rfl)

/-- The interpolation factor is at least 1 - variation_range, hence
non-negative when the range is between 0 and 1 and steps ≥ 2. -/
lemma factor_nonneg (vrange : ℚ) (steps : ℤ) (i : ℕ)
    (h2 : 2 ≤ steps) (hvr0 : 0 ≤ vrange) (hvr1 : vrange ≤ 1) :
    0 ≤ factor vrange steps i := by
  have hden : (0 : ℚ) < (steps : ℚ) - 1 := by
    have : (2 : ℚ) ≤ (steps : ℚ) := by exact_mod_cast h2
    linarith
  have hnum : (0 : ℚ) ≤ 2 * vrange * i :=
    mul_nonneg (mul_nonneg (by norm_num) hvr0) (Nat.cast_nonneg i)
  have hfrac : (0 : ℚ) ≤ 2 * vrange * i / ((steps : ℚ) - 1) :=
    div_nonneg hnum (le_of_lt hden)
  unfold factor
  linarith

/-- A simulation iteration succeeds when the step count is not 1 and the
perturbed record validates. -/
lemma simStep_ok (schema : List Feature) (score : Target → List Value → ℚ)
    (base : Record) (vary : Feature) (baseValue : ℚ) (steps : ℤ)
    (vrange : ℚ) (i : ℕ) (X : List (Feature × Value))
    (hsteps : steps ≠ 1)
    (hv : validate_and_prepare_data schema
      (setField base vary (baseValue * factor vrange steps i)) = .ok X) :
    simStep schema score base vary baseValue steps vrange i =
      .ok ⟨i, baseValue * factor vrange steps i,
        score .health_index (X.map Prod.snd),
        score .mutation_risk (X.map Prod.snd),
        score .adaptation_score (X.map Prod.snd)⟩ := by
  simp only [simStep, if_neg hsteps, hv]

/-- C10 counterexample: the claim quantifies over every valid base
record and variation range in (0, 1] with no restriction on the step
count, and asserts the trajectory holds one entry per step index; at
steps = 1 the division by zero makes the call error, so no one-entry
trajectory is produced. -/
theorem C10_counterexample :
    simulate demoMeta demoScore demoBase10 "env_stress" 1 (3/10) =
      .error .internalError := by
  with_unfolding_all rfl

/-- C10 as amended: for every base record passing validation, every
varied feature belonging to the schema, every variation range in (0, 1]
and every step count other than the degenerate 1, every varied value is
non-negative (each factor is at least 1 - variation_range ≥ 0), every
perturbed record passes validation, and the simulation succeeds with a
trajectory holding exactly one entry per step index (empty when the step
count is not positive). -/
theorem C10_trajectory_all_valid (M : Metadata)
    (score : Target → List Value → ℚ) (base : Record) (vary : Feature)
    (steps : ℤ) (vrange : ℚ) (Xb : List (Feature × Value))
    (hvr0 : 0 < vrange) (hvr1 : vrange ≤ 1)
    (hvary : vary ∈ M.features) (hvne : vary ≠ "")
    (hsteps : steps ≠ 1)
    (hval : validate_and_prepare_data M.features base = .ok Xb) :
    ∃ resp, simulate M score base vary steps vrange = .ok resp ∧
      resp.trajectory.length = steps.toNat ∧
      resp.trajectory.map SimStep.step = List.range steps.toNat ∧
      (∀ st ∈ resp.trajectory, 0 ≤ st.varied) ∧
      ∀ i ∈ List.range steps.toNat,
        ∃ X, validate_and_prepare_data M.features
          (setField base vary (resp.base_value * factor vrange steps i)) =
            .ok X := by
  obtain ⟨hprops, _⟩ := validate_ok_inv _ _ _ hval
  obtain ⟨bv, hbv, hbv0⟩ := hprops vary hvary
  have hbase_ne : base ≠ [] := by
    intro he
    rw [he] at hbv
    cases hbv
  have hcond : ¬(base = [] ∨ vary = "") := by
    rintro (h | h)
    · exact hbase_ne h
    · exact hvne h
  rcases le_or_lt steps 0 with hle | hpos
  · have h0 : steps.toNat = 0 := Int.toNat_of_nonpos hle
    refine ⟨⟨[], vary, bv, vrange, steps⟩, ?_, by simp [h0], by simp [h0],
      by simp, ?_⟩
    · simp only [simulate, if_neg hcond, hval, hbv, h0, List.range_zero,
        exceptMap]
    · intro i hi
      rw [h0] at hi
      simp at hi
  · have h2 : 2 ≤ steps := by omega
    have hstep : ∀ i : ℕ, validate_and_prepare_data M.features
        (setField base vary (bv * factor vrange steps i)) =
        .ok (M.features.zip (M.features.map (fun f =>
          ((lookupCol (setField base vary (bv * factor vrange steps i))
            f).join).getD 0))) := by
      intro i
      apply validate_ok_of_forall
      intro f hf
      by_cases hfv : f = vary
      · subst hfv
        refine ⟨bv * factor vrange steps i, lookupCol_setField_self _ _ _, ?_⟩
        exact mul_nonneg hbv0 (factor_nonneg vrange steps i h2 (le_of_lt hvr0) hvr1)
      · obtain ⟨w, hw, hw0⟩ := hprops f hf
        exact ⟨w, by rw [lookupCol_setField_ne _ _ _ _ hfv]; exact hw, hw0⟩
    obtain ⟨g, hgstep, hgvar, hmap⟩ :
        ∃ g : ℕ → SimStep, (∀ i, (g i).step = i) ∧
          (∀ i, (g i).varied = bv * factor vrange steps i) ∧
          exceptMap (simStep M.features score base vary bv steps vrange)
            (List.range steps.toNat) =
            .ok ((List.range steps.toNat).map g) := by
      refine ⟨fun i => ⟨i, bv * factor vrange steps i,
        score .health_index ((M.features.zip (M.features.map (fun f =>
          ((lookupCol (setField base vary (bv * factor vrange steps i))
            f).join).getD 0))).map Prod.snd),
        score .mutation_risk ((M.features.zip (M.features.map (fun f =>
          ((lookupCol (setField base vary (bv * factor vrange steps i))
            f).join).getD 0))).map Prod.snd),
        score .adaptation_score ((M.features.zip (M.features.map (fun f =>
          ((lookupCol (setField base vary (bv * factor vrange steps i))
            f).join).getD 0))).map Prod.snd)⟩,
        fun i => rfl, fun i => rfl, ?_⟩
      exact exceptMap_ok_of_forall _ _ _
        (fun i _ => simStep_ok M.features score base vary bv steps vrange i _
          hsteps (hstep i))
    refine ⟨⟨(List.range steps.toNat).map g, vary, bv, vrange, steps⟩,
      ?_, ?_, ?_, ?_, ?_⟩
    · simp only [simulate, if_neg hcond, hval, hbv, hmap]
    · simp
    · rw [List.map_map]
      have hcomp : (SimStep.step ∘ g) = fun i => i := funext fun i => hgstep i
      rw [hcomp]
      simp
    · intro st hst
      obtain ⟨i, hi, rfl⟩ := List.mem_map.mp hst
      rw [hgvar i]
      exact mul_nonneg hbv0
        (factor_nonneg vrange steps i h2 (le_of_lt hvr0) hvr1)
    · intro i hi
      exact ⟨_, hstep i⟩

/-- C10 witness: the amended theorem applied at the demo base record,
varied feature env_stress, steps = 4, variation range 0.3. -/
theorem C10_trajectory_all_valid_witness :
    ∃ resp, simulate demoMeta demoScore demoBase10 "env_stress" 4 (3/10) =
      .ok resp ∧
      resp.trajectory.length = (4 : ℤ).toNat ∧
      resp.trajectory.map SimStep.step = List.range (4 : ℤ).toNat ∧
      (∀ st ∈ resp.trajectory, 0 ≤ st.varied) ∧
      ∀ i ∈ List.range (4 : ℤ).toNat,
        ∃ X, validate_and_prepare_data demoMeta.features
          (setField demoBase10 "env_stress"
            (resp.base_value * factor (3/10) 4 i)) = .ok X :=
  C10_trajectory_all_valid demoMeta demoScore demoBase10 "env_stress" 4 (3/10)
    [("gene_expr", 10), ("cell_density", 5), ("env_stress", 2)]
    (by norm_num) (by norm_num) (by decide) (by decide) (by decide)
    (by with_unfolding_all rfl)

end BioSentience
